import Mathlib

/-!
Shallow embedding of `cams_radiation/cams_radiation.py` (package `cams_radiation`).

Modelling conventions:
 - pandas timestamps are seconds since the epoch (`Int`); a pandas `Timedelta`
   between two timestamps is their difference `δ : Int`, whose `.days`
   attribute is `δ / 86400` (floor division, as in Python) and whose
   `.seconds` attribute is `δ % 86400` (Python modulo, always in `[0, 86400)`).
   Lean's `/` and `%` on `Int` are floor division and nonnegative remainder,
   matching Python exactly.
 - float arithmetic on data columns is modelled over `ℚ`; the decimal literals
   `0.5`, `4.6`, `1e-6` of the source become `1/2`, `46/10`, `1/1000000`.
 - a `DataFrame` with a time index and a GHI column is `IrradiationTable`;
   fallible operations (Python exceptions) return `Option`/`Except`.
 - Python string helpers `s.split(sep)[0]` and `s.split(sep)[-1]` for a
   one-character separator are the maximal separator-free prefix and suffix;
   they are embedded as `List Char` computations so that everything reduces.
-/

/-! ### Constants (lines 27–31 of the source) -/

def PAR_FRACTION : ℚ := 1/2

def J_TO_UMOL : ℚ := 46/10

def CAMS_SOLAR_RADIATION_TIMESERIES : String := "cams-solar-radiation-timeseries"

def CAMS_TIME_COL : String := "Observation_period"

/-! ### Request model (class `CDSRequest`, lines 41–57)

`pydantic.BaseModel` with `Literal` fields: constructing an instance first
validates that `time_step` and `output_format` are among the permitted
literals, then runs the `mode="after"` model validator
`check_csv_expert_timestep`.  Construction is modelled as a function
returning `Except String CDSRequest`. -/

structure CDSRequest where
  latitude : String
  longitude : String
  altitude : String
  start_time : String
  end_time : String
  time_step : String
  output_format : String
  cdsapi_kwargs : Option (List (String × String)) := none
deriving DecidableEq

/-- Permitted literals of the `time_step` field (line 49). -/
def validTimeStep (s : String) : Bool :=
  s = "1minute" || s = "15minute" || s = "1hour" || s = "1day" || s = "1month"

/-- Permitted literals of the `output_format` field (line 50). -/
def validOutputFormat (s : String) : Bool :=
  s = "csv" || s = "netcdf" || s = "csv_expert"

/-- The `mode="after"` model validator (lines 53–57): rejects
`output_format == "csv_expert"` with any `time_step` other than `"1minute"`. -/
def check_csv_expert_timestep (r : CDSRequest) : Except String CDSRequest :=
  if r.output_format = "csv_expert" ∧ ¬ r.time_step = "1minute" then
    Except.error "csv_expert mode only available for 1minute timestep"
  else
    Except.ok r

/-- Construction of a `CDSRequest`: pydantic field validation of the two
`Literal` fields, then the after-validator.  (The five free-form string
fields and the optional kwargs dict have type `str`/`dict` and pass field
validation for every value.) -/
def CDSRequest.construct (r : CDSRequest) : Except String CDSRequest :=
  if ¬ validTimeStep r.time_step then
    Except.error "time_step: input should be a permitted literal"
  else if ¬ validOutputFormat r.output_format then
    Except.error "output_format: input should be a permitted literal"
  else
    check_csv_expert_timestep r

/-! ### String helpers for the CSV parser and index normalization -/

/-- Splits a character list at every occurrence of `sep`; embeds Python
`str.split(sep)` for a one-character separator.  Structural recursion,
always returns a nonempty list. -/
def splitOnChar (sep : Char) : List Char → List (List Char)
  | [] => [[]]
  | c :: cs =>
    if c = sep then
      [] :: splitOnChar sep cs
    else
      match splitOnChar sep cs with
      | h :: t => (c :: h) :: t
      | [] => [[c]]

/-- Embeds Python `s.split(sep)[-1]` for a one-character separator: the
maximal suffix of `s` free of `sep` (the whole of `s` when `sep` does not
occur). -/
def afterLastSep (sep : Char) (s : String) : String :=
  String.mk ((s.data.reverse.takeWhile (fun c => ¬ c = sep)).reverse)

/-- Embeds Python `s.split(sep)[0]` for a one-character separator: the
maximal prefix of `s` free of `sep`. -/
def beforeFirstSep (sep : Char) (s : String) : String :=
  String.mk (s.data.takeWhile (fun c => ¬ c = sep))

/-- Embeds Python `str.lstrip()` followed by `str.rstrip()`: drops
whitespace from both ends. -/
def pyStrip (l : List Char) : List Char :=
  ((l.dropWhile Char.isWhitespace).reverse.dropWhile Char.isWhitespace).reverse

/-- Header normalization of line 95 of the source:
`df.columns.str.lstrip().str.rstrip().str.replace(" ", "_")` applied to one
header — strip whitespace from both ends, then replace every remaining
space by an underscore. -/
def normalizeHeader (s : String) : String :=
  String.mk ((pyStrip s.data).map (fun c => if c = ' ' then '_' else c))

/-! ### CSV parser (`_read_csv_url_to_dataframe`, lines 90–96)

The HTTP fetch (`requests.get`) is an external collaborator; the function is
modelled on the fetched text.  `pd.read_csv(..., delimiter=";")` is modelled
as: split into lines, the first line gives the headers (normalized as in
line 95), the remaining lines are the data rows, each split on `;`. -/

def parse_semicolon_table (data : String) : List String × List (List String) :=
  let lines := (splitOnChar '\n' data.data).map String.mk
  let headers := (splitOnChar ';' (lines.headD "").data).map
    (fun f => normalizeHeader (String.mk f))
  let rows := (lines.drop 1).map (fun line => (splitOnChar ';' line.data).map String.mk)
  (headers, rows)

/-- Lines 90–96 of the source, on the fetched response text: keep
`response.text.split("#")[-1]` and parse it as a semicolon-delimited table
with normalized headers. -/
def _read_csv_url_to_dataframe (text : String) : List String × List (List String) :=
  parse_semicolon_table (afterLastSep '#' text)

/-- Modelled from the spec: the claim reads "discards everything up to and
including the final `#`-prefixed comment line".  This comparison definition
follows the spec's words: drop every line up to and including the last line
that starts with `'#'`, keeping only the lines strictly after it. -/
def spec_discard_through_last_hash_line (text : String) : String :=
  let lines := splitOnChar '\n' text.data
  let keep := (lines.reverse.takeWhile (fun l => ¬ l.headD ' ' = '#')).reverse
  String.mk ((keep.intersperse ['\n']).flatten)

/-! ### Index normalization (`observation_period_to_index`, lines 105–112) -/

/-- Result of `pd.to_datetime` on one ISO-format string, to calendar-minute
precision (the precision of CAMS observation-period strings
`"YYYY-MM-DDTHH:MM"`). -/
structure PyTimestamp where
  year : Nat
  month : Nat
  day : Nat
  hour : Nat
  minute : Nat
deriving DecidableEq

/-- Decimal digits to a natural number. -/
def digitsToNat (l : List Char) : Nat :=
  l.foldl (fun n c => 10 * n + (c.toNat - '0'.toNat)) 0

/-- Models `pd.to_datetime` on an ISO `"YYYY-MM-DDTHH:MM"` string, the
format of the start of a CAMS observation period. -/
def parseTimestamp (s : String) : PyTimestamp :=
  let dt := splitOnChar 'T' s.data
  let dparts := splitOnChar '-' (dt.headD [])
  let tparts := splitOnChar ':' ((dt.drop 1).headD [])
  { year := digitsToNat (dparts.headD [])
  , month := digitsToNat ((dparts.drop 1).headD [])
  , day := digitsToNat ((dparts.drop 2).headD [])
  , hour := digitsToNat (tparts.headD [])
  , minute := digitsToNat ((tparts.drop 1).headD []) }

/-- A raw fetched table before index normalization: the
`"Observation_period"` column of strings, plus the remaining row data of
each row (type `ρ`, opaque here). -/
structure RawTable (ρ : Type) where
  observation_period : List String
  rows : List ρ

/-- A table after index normalization: a named time index plus the
remaining row data. -/
structure IndexedTable (ρ : Type) where
  index_name : String
  index : List PyTimestamp
  rows : List ρ

/-- Lines 105–112 of the source: for each row, take
`x[CAMS_TIME_COL].split("/")[0]`, parse it with `pd.to_datetime`, make the
result the table's index (dropping the column), and rename the index when
`new_index_name` is given.  The Python function mutates `df` in place and
returns it; in this pure model the returned table is the mutated table. -/
def observation_period_to_index {ρ : Type} (df : RawTable ρ)
    (new_index_name : Option String := none) : IndexedTable ρ :=
  { index_name := new_index_name.getD CAMS_TIME_COL
  , index := df.observation_period.map (fun s => parseTimestamp (beforeFirstSep '/' s))
  , rows := df.rows }

/-! ### PAR calculation (`calculate_PAR`, lines 115–138) -/

/-- A time-indexed table holding a `"GHI"` column (Wh/m², modelled in `ℚ`).
The pandas `DataFrame` invariant that every column has the index's length is
carried as a hypothesis where a theorem needs it. -/
structure IrradiationTable where
  index : List Int
  GHI : List ℚ

/-- One row of the derived table: the four columns of `Units`
(lines 34–38). -/
structure ParRow where
  global_irradiation : ℚ
  shortwave_radiation : ℚ
  PAR : ℚ
  PPFD : ℚ
deriving DecidableEq

/-- Lines 116–121 of the source: the observation interval in seconds
inferred from the timedelta of the first two index entries.  Python's
`timedelta.days` is `time_delta / 86400` (floor) and `timedelta.seconds`
is `time_delta % 86400`. -/
def time_delta_seconds (time_delta : Int) : Int :=
  let s_in_1h : Int := 3600
  if ¬ time_delta / 86400 = 0 then s_in_1h * 24 * (time_delta / 86400)
  else time_delta % 86400

/-- Lines 126–136 of the source: the four derived columns for one row with
GHI value `g`, given the inferred interval `time_delta_s` in seconds. -/
def mkParRow (time_delta_s : Int) (g : ℚ) : ParRow :=
  let shortwave := g * 3600 / (time_delta_s : ℚ)
  { global_irradiation := g
  , shortwave_radiation := shortwave
  , PAR := g * 3600 * PAR_FRACTION * (1/1000000)
  , PPFD := shortwave * PAR_FRACTION * J_TO_UMOL }

/-- Lines 115–138 of the source.  `df_irradiation.index[1]` raises
`IndexError` on a table with fewer than two rows, modelled as `none`.  The
result pairs the input's time index with the derived columns. -/
def calculate_PAR (df_irradiation : IrradiationTable) :
    Option (List (Int × ParRow)) :=
  match df_irradiation.index with
  | t0 :: t1 :: _ =>
    some (df_irradiation.index.zip
      (df_irradiation.GHI.map (mkParRow (time_delta_seconds (t1 - t0)))))
  | _ => none

/-! ### Resampling (`df_aggr.resample(aggregator_param).agg(aggregators)`,
lines 171–177)

pandas `resample` with frequency `"1D"`, `"1H"` or `"30Min"` (default
origin `start_day`) puts timestamp `t` in the bin labelled
`bucket * (t / bucket)` — these three frequencies divide a day evenly, so
the bins are the epoch-aligned multiples of the bin length.  One output row
per bin from the first occupied bin to the last, aggregated with `sum` for
global irradiation and PAR and `mean` for shortwave radiation and PPFD.
pandas yields `NaN` for the mean of an empty bin; `ℚ` has no `NaN` and this
model yields `0` there (division by the zero length) — no theorem below
touches an empty bin. -/

def bucketOf (bucket t : Int) : Int := bucket * (t / bucket)

def meanQ (l : List ℚ) : ℚ := l.sum / (l.length : ℚ)

/-- The per-column aggregation of lines 171–176: `sum` for
global irradiation and PAR, `mean` for shortwave radiation and PPFD. -/
def aggRow (members : List ParRow) : ParRow :=
  { global_irradiation := (members.map ParRow.global_irradiation).sum
  , shortwave_radiation := meanQ (members.map ParRow.shortwave_radiation)
  , PAR := (members.map ParRow.PAR).sum
  , PPFD := meanQ (members.map ParRow.PPFD) }

/-- `resample(param).agg(aggregators)` of line 177 for a bin length in
seconds (`"1D"` = 86400, `"1H"` = 3600, `"30Min"` = 1800). -/
def resampleAgg (bucket : Int) (tbl : List (Int × ParRow)) :
    List (Int × ParRow) :=
  match tbl with
  | [] => []
  | p :: ps =>
    let buckets := (p :: ps).map (fun q => bucketOf bucket q.1)
    let firstB := buckets.foldl min (bucketOf bucket p.1)
    let lastB := buckets.foldl max (bucketOf bucket p.1)
    let n := ((lastB - firstB) / bucket).toNat + 1
    (List.range n).map (fun (i : ℕ) =>
      let B := firstB + bucket * (i : Int)
      (B, aggRow (((p :: ps).filter (fun q => bucketOf bucket q.1 == B)).map Prod.snd)))

/-! ### Aggregated PAR (`calculate_aggregated_par`, lines 141–179) -/

/-- The ways `calculate_aggregated_par` fails: the `IndexError` of
`df_irradiation.index[1]` on a short table (line 142), a failed `assert`
(lines 153/157/161), or the `NotImplementedError` of lines 165–167. -/
inductive AggError where
  | indexError : AggError
  | assertionError : String → AggError
  | notImplementedError : String → AggError
deriving DecidableEq

deriving instance DecidableEq for Except

/-- The f-string of line 144 (the Python message renders the `Timedelta`;
here the delta renders as its seconds count). -/
def assert_error_message (aggregation_level : String) (time_delta : Int) : String :=
  "Aggregation level " ++ aggregation_level ++
    " not possible with current data time step: " ++ toString time_delta ++ " s"

/-- Lines 141–179 of the source.  `time_delta.days` is `time_delta / 86400`
and `time_delta.seconds` is `time_delta % 86400` (Python floor division and
modulo); each `assert cond, msg` becomes an `assertionError msg` branch when
`cond` fails.  The unused `s_in_min = 60` and the unused `par_units`
bindings of the source are omitted. -/
def calculate_aggregated_par (df_irradiation : IrradiationTable)
    (aggregation_level : String) : Except AggError (List (Int × ParRow)) :=
  match df_irradiation.index with
  | t0 :: t1 :: _ =>
    let time_delta := t1 - t0
    let msg := assert_error_message aggregation_level time_delta
    let proceed : Int → Except AggError (List (Int × ParRow)) := fun bucket =>
      match calculate_PAR df_irradiation with
      | some df_aggr => Except.ok (resampleAgg bucket df_aggr)
      | none => Except.error AggError.indexError
    if aggregation_level = "daily" then
      if time_delta / 86400 = 0 ∧ ¬ time_delta % 86400 < 86400 then
        Except.error (AggError.assertionError msg)
      else proceed 86400
    else if aggregation_level = "hourly" then
      if ¬ time_delta % 86400 < 3600 then
        Except.error (AggError.assertionError msg)
      else proceed 3600
    else if aggregation_level = "30min" then
      if ¬ time_delta % 86400 < 1800 then
        Except.error (AggError.assertionError msg)
      else proceed 1800
    else
      Except.error (AggError.notImplementedError
        ("Aggregation level " ++ aggregation_level ++ " not implemented!"))
  | _ => Except.error AggError.indexError

/-! ### Helper lemmas -/

lemma takeWhile_append_stop {α : Type} (p : α → Bool) (xs ys : List α) (y : α)
    (hxs : ∀ x ∈ xs, p x = true) (hy : p y = false) :
    (xs ++ y :: ys).takeWhile p = xs := by
  induction xs with
  | nil => simp [List.takeWhile_cons, hy]
  | cons a as ih =>
    simp only [List.mem_cons, forall_eq_or_imp] at hxs
    simp [List.takeWhile_cons, hxs.1, ih hxs.2]

lemma afterLastSep_append (sep : Char) (pre post : String)
    (h : sep ∉ post.data) :
    afterLastSep sep (pre ++ String.mk [sep] ++ post) = post := by
  unfold afterLastSep
  have hdata : (pre ++ String.mk [sep] ++ post).data
      = pre.data ++ sep :: post.data := by
    simp [String.data_append]
  rw [hdata]
  have hrev : (pre.data ++ sep :: post.data).reverse
      = post.data.reverse ++ sep :: pre.data.reverse := by
    simp
  rw [hrev, takeWhile_append_stop]
  · simp
  · intro x hx
    have : x ∈ post.data := List.mem_reverse.mp hx
    simp [ne_of_mem_of_not_mem this h]
  · simp

lemma beforeFirstSep_append (sep : Char) (st en : String)
    (h : sep ∉ st.data) :
    beforeFirstSep sep (st ++ String.mk [sep] ++ en) = st := by
  unfold beforeFirstSep
  have hdata : (st ++ String.mk [sep] ++ en).data
      = st.data ++ sep :: en.data := by
    simp [String.data_append]
  rw [hdata, takeWhile_append_stop]
  · intro x hx
    simp [ne_of_mem_of_not_mem hx h]
  · simp

lemma foldl_min_const (l : List Int) (B : Int) (h : ∀ x ∈ l, x = B) :
    l.foldl min B = B := by
  induction l with
  | nil => rfl
  | cons x xs ih =>
    simp only [List.mem_cons, forall_eq_or_imp] at h
    simp [List.foldl, h.1, ih h.2]

lemma foldl_max_const (l : List Int) (B : Int) (h : ∀ x ∈ l, x = B) :
    l.foldl max B = B := by
  induction l with
  | nil => rfl
  | cons x xs ih =>
    simp only [List.mem_cons, forall_eq_or_imp] at h
    simp [List.foldl, h.1, ih h.2]

lemma resampleAgg_single_bucket (b B : Int) (tbl : List (Int × ParRow))
    (hne : tbl ≠ []) (hB : ∀ p ∈ tbl, bucketOf b p.1 = B) :
    resampleAgg b tbl = [(B, aggRow (tbl.map Prod.snd))] := by
  match tbl, hne with
  | p :: ps, _ =>
    have hconst : ∀ x ∈ (p :: ps).map (fun q => bucketOf b q.1), x = B := by
      intro x hx
      rcases List.mem_map.mp hx with ⟨q, hq, rfl⟩
      exact hB q hq
    have hp : bucketOf b p.1 = B := hB p (by simp)
    have hfilter : (p :: ps).filter (fun q => bucketOf b q.1 == B) = p :: ps :=
      List.filter_eq_self.mpr (fun q hq => beq_iff_eq.mpr (hB q hq))
    simp only [resampleAgg, hp, foldl_min_const _ _ hconst,
      foldl_max_const _ _ hconst, hfilter]
    simp [List.range_succ, hfilter]

lemma aggRow_replicate (n : ℕ) (R : ParRow) (hn : n ≠ 0) :
    aggRow (List.replicate n R) =
      { global_irradiation := n • R.global_irradiation
      , shortwave_radiation := R.shortwave_radiation
      , PAR := n • R.PAR
      , PPFD := R.PPFD } := by
  have hmean : ∀ x : ℚ, meanQ (List.replicate n x) = x := by
    intro x
    unfold meanQ
    rw [List.sum_replicate, List.length_replicate, nsmul_eq_mul,
      mul_div_cancel_left₀ _ (Nat.cast_ne_zero.mpr hn)]
  unfold aggRow
  simp [List.map_replicate, List.sum_replicate, hmean]

/-! ### Claims -/

/-- C1: over the allowed `time_step` and `output_format` literals,
constructing a `CDSRequest` succeeds except exactly when
`output_format = "csv_expert"` and `time_step ≠ "1minute"`, which the
after-validator rejects at construction time. -/
theorem CDSRequest_construct_valid_combinations (r : CDSRequest)
    (hts : validTimeStep r.time_step = true)
    (hof : validOutputFormat r.output_format = true) :
    (CDSRequest.construct r).isOk = true ↔
      ¬ (r.output_format = "csv_expert" ∧ ¬ r.time_step = "1minute") := by
  unfold CDSRequest.construct check_csv_expert_timestep
  rw [if_neg (by simp [hts]), if_neg (by simp [hof])]
  by_cases hc : r.output_format = "csv_expert" ∧ ¬ r.time_step = "1minute"
  · simp [hc, Except.isOk, Except.toBool]
  · simp [hc, Except.isOk, Except.toBool]

theorem CDSRequest_construct_valid_combinations_witness :
    validTimeStep "1day" = true ∧ validOutputFormat "csv" = true ∧
    ((CDSRequest.construct
        ⟨"60.29", "22.39", "12.28", "2023-01-01", "2023-12-05",
          "1day", "csv", none⟩).isOk = true ↔
      ¬ ((("csv" : String) = "csv_expert") ∧ ¬ (("1day" : String) = "1minute"))) :=
  ⟨by decide, by decide,
    CDSRequest_construct_valid_combinations
      ⟨"60.29", "22.39", "12.28", "2023-01-01", "2023-12-05", "1day", "csv", none⟩
      (by decide) (by decide)⟩

/-- C10: both `calculate_PAR` and `calculate_aggregated_par` read the second
index entry before anything else, so every table with fewer than two rows
makes both fail with the index-out-of-range error. -/
theorem index_error_on_short_tables (df : IrradiationTable) (level : String)
    (h : df.index.length < 2) :
    calculate_PAR df = none ∧
    calculate_aggregated_par df level = Except.error AggError.indexError := by
  rcases hidx : df.index with _ | ⟨a, _ | ⟨b, t⟩⟩
  · exact ⟨by simp [calculate_PAR, hidx], by simp [calculate_aggregated_par, hidx]⟩
  · exact ⟨by simp [calculate_PAR, hidx], by simp [calculate_aggregated_par, hidx]⟩
  · rw [hidx] at h
    simp at h
    omega

theorem index_error_on_short_tables_witness :
    ((⟨[], []⟩ : IrradiationTable).index.length < 2) ∧
    (calculate_PAR ⟨[], []⟩ = none ∧
      calculate_aggregated_par ⟨[], []⟩ "daily" = Except.error AggError.indexError) :=
  ⟨by decide, index_error_on_short_tables ⟨[], []⟩ "daily" (by decide)⟩

/-- C9 (amended): an aggregation level outside daily/hourly/30min makes
`calculate_aggregated_par` fail with the not-implemented error, provided the
table has at least two index entries; the second index entry is read first,
so shorter tables fail with the index error instead. -/
theorem calculate_aggregated_par_unknown_level (df : IrradiationTable)
    (level : String) (h1 : ¬ level = "daily") (h2 : ¬ level = "hourly")
    (h3 : ¬ level = "30min") (t0 t1 : Int) (rest : List Int)
    (hidx : df.index = t0 :: t1 :: rest) :
    calculate_aggregated_par df level =
      Except.error (AggError.notImplementedError
        ("Aggregation level " ++ level ++ " not implemented!")) := by
  simp [calculate_aggregated_par, hidx, h1, h2, h3]

/-- C9 counterexample: on a table with fewer than two rows,
`calculate_aggregated_par` with the unknown level `"weekly"` fails with the
index error, not with the not-implemented error the claim requires for
every table. -/
theorem calculate_aggregated_par_weekly_short_table_cex :
    calculate_aggregated_par ⟨[], []⟩ "weekly" = Except.error AggError.indexError ∧
    (Except.error AggError.indexError :
        Except AggError (List (Int × ParRow))) ≠
      Except.error (AggError.notImplementedError
        "Aggregation level weekly not implemented!") :=
  ⟨rfl, by decide⟩

theorem calculate_aggregated_par_unknown_level_witness :
    (¬ ("weekly" : String) = "daily") ∧ (¬ ("weekly" : String) = "hourly") ∧
    (¬ ("weekly" : String) = "30min") ∧
    ((⟨[0, 1800], [1, 1]⟩ : IrradiationTable).index = 0 :: 1800 :: []) ∧
    calculate_aggregated_par ⟨[0, 1800], [1, 1]⟩ "weekly" =
      Except.error (AggError.notImplementedError
        ("Aggregation level " ++ "weekly" ++ " not implemented!")) :=
  ⟨by decide, by decide, by decide, rfl,
    calculate_aggregated_par_unknown_level ⟨[0, 1800], [1, 1]⟩ "weekly"
      (by decide) (by decide) (by decide) 0 1800 [] rfl⟩

/-- C8: on a table whose first two index entries are one hour apart, hourly
aggregation fails the `assert time_delta.seconds < s_in_1h` check with the
assertion message naming the level and the interval. -/
theorem calculate_aggregated_par_hourly_on_hourly (df : IrradiationTable)
    (t0 t1 : Int) (rest : List Int) (hidx : df.index = t0 :: t1 :: rest)
    (hdelta : t1 - t0 = 3600) :
    calculate_aggregated_par df "hourly" =
      Except.error (AggError.assertionError (assert_error_message "hourly" 3600)) := by
  simp [calculate_aggregated_par, hidx, hdelta]

theorem calculate_aggregated_par_hourly_on_hourly_witness :
    ((⟨[0, 3600, 7200], [1, 1, 1]⟩ : IrradiationTable).index
        = 0 :: 3600 :: [7200]) ∧
    ((3600 : Int) - 0 = 3600) ∧
    calculate_aggregated_par ⟨[0, 3600, 7200], [1, 1, 1]⟩ "hourly" =
      Except.error (AggError.assertionError (assert_error_message "hourly" 3600)) :=
  ⟨rfl, by decide,
    calculate_aggregated_par_hourly_on_hourly ⟨[0, 3600, 7200], [1, 1, 1]⟩
      0 3600 [7200] rfl (by decide)⟩

/-- C5: `calculate_PAR` derives its interval from the gap between the first
two index entries; writing that gap as `86400 * d + r` with `0 ≤ r < 86400`
(so `d` is the Python `timedelta.days` and `r` its `.seconds`), the inferred
interval is `86400 * d` when `d ≠ 0` (the remainder `r` is discarded) and
`r` when `d = 0`. -/
theorem calculate_PAR_interval_inference (df : IrradiationTable)
    (t0 t1 : Int) (rest : List Int) (hidx : df.index = t0 :: t1 :: rest)
    (d r : Int) (hd : t1 - t0 = 86400 * d + r) (hr0 : 0 ≤ r) (hr1 : r < 86400) :
    calculate_PAR df =
      some (df.index.zip (df.GHI.map (mkParRow (time_delta_seconds (t1 - t0))))) ∧
    (¬ d = 0 → time_delta_seconds (t1 - t0) = 86400 * d) ∧
    (d = 0 → time_delta_seconds (t1 - t0) = r) := by
  refine ⟨by simp [calculate_PAR, hidx], ?_, ?_⟩
  · intro hd0
    have hdiv : (t1 - t0) / 86400 = d := by omega
    have hne : ¬ (t1 - t0) / 86400 = 0 := by omega
    simp [time_delta_seconds, hne, hdiv]
    omega
  · intro hd0
    have hdiv : (t1 - t0) / 86400 = 0 := by omega
    have hmod : (t1 - t0) % 86400 = r := by omega
    simp [time_delta_seconds, hdiv, hmod]

theorem calculate_PAR_interval_inference_witness :
    ((⟨[0, 90000], [2]⟩ : IrradiationTable).index = 0 :: 90000 :: []) ∧
    ((90000 : Int) - 0 = 86400 * 1 + 3600) ∧ ((0 : Int) ≤ 3600) ∧
    ((3600 : Int) < 86400) ∧
    (calculate_PAR ⟨[0, 90000], [2]⟩ =
      some ((⟨[0, 90000], [2]⟩ : IrradiationTable).index.zip
        ((⟨[0, 90000], [2]⟩ : IrradiationTable).GHI.map
          (mkParRow (time_delta_seconds (90000 - 0))))) ∧
     (¬ (1 : Int) = 0 → time_delta_seconds (90000 - 0) = 86400 * 1) ∧
     ((1 : Int) = 0 → time_delta_seconds (90000 - 0) = 3600)) :=
  ⟨rfl, by decide, by decide, by decide,
    calculate_PAR_interval_inference ⟨[0, 90000], [2]⟩ 0 90000 [] rfl 1 3600
      (by decide) (by decide) (by decide)⟩

/-- C2: on a table whose first two index entries are one hour apart, every
derived row copies its GHI value from the input, has
shortwave = GHI × 3600 ÷ 3600, PAR = GHI × 3600 × 0.5 × 1e-6 and
PPFD = shortwave × 0.5 × 4.6, and the output shares the input's time
index; when every GHI value is 1000 Wh/m², every row has shortwave
1000 W/m², PAR 1.8 MJ/m² and PPFD 2300 µmol/m²/s. -/
theorem calculate_PAR_hourly_table (df : IrradiationTable) (t0 t1 : Int)
    (rest : List Int) (hidx : df.index = t0 :: t1 :: rest)
    (hlen : df.GHI.length = df.index.length) (hdelta : t1 - t0 = 3600) :
    ∃ out, calculate_PAR df = some out ∧
      out.map Prod.fst = df.index ∧
      (∀ p ∈ out,
        p.2.global_irradiation ∈ df.GHI ∧
        p.2.shortwave_radiation = p.2.global_irradiation * 3600 / 3600 ∧
        p.2.PAR = p.2.global_irradiation * 3600 * (1/2) * (1/1000000) ∧
        p.2.PPFD = p.2.shortwave_radiation * (1/2) * (46/10)) ∧
      ((∀ g ∈ df.GHI, g = 1000) →
        ∀ p ∈ out,
          p.2.shortwave_radiation = 1000 ∧ p.2.PAR = 9/5 ∧ p.2.PPFD = 2300) := by
  have hΔ : time_delta_seconds (t1 - t0) = 3600 := by rw [hdelta]; decide
  refine ⟨df.index.zip (df.GHI.map (mkParRow (time_delta_seconds (t1 - t0)))),
    by simp [calculate_PAR, hidx], ?_, ?_, ?_⟩
  · exact List.map_fst_zip _ _ (by simp [hlen])
  · intro p hp
    obtain ⟨hp1, hp2⟩ := List.of_mem_zip hp
    obtain ⟨g, hg, hpe⟩ := List.mem_map.mp hp2
    rw [← hpe]
    rw [hΔ] at hpe ⊢
    refine ⟨by simp [mkParRow]; exact hg, ?_, ?_, ?_⟩
    · simp [mkParRow]
    · simp [mkParRow, PAR_FRACTION]
    · simp [mkParRow, PAR_FRACTION, J_TO_UMOL]
  · intro hall p hp
    obtain ⟨hp1, hp2⟩ := List.of_mem_zip hp
    obtain ⟨g, hg, hpe⟩ := List.mem_map.mp hp2
    rw [← hpe, hΔ, hall g hg]
    refine ⟨by norm_num [mkParRow], by norm_num [mkParRow, PAR_FRACTION], ?_⟩
    norm_num [mkParRow, PAR_FRACTION, J_TO_UMOL]

theorem calculate_PAR_hourly_table_witness :
    ((⟨[0, 3600], [1000, 1000]⟩ : IrradiationTable).index = 0 :: 3600 :: []) ∧
    ((⟨[0, 3600], [1000, 1000]⟩ : IrradiationTable).GHI.length =
      (⟨[0, 3600], [1000, 1000]⟩ : IrradiationTable).index.length) ∧
    ((3600 : Int) - 0 = 3600) ∧
    (∃ out, calculate_PAR ⟨[0, 3600], [1000, 1000]⟩ = some out ∧
      out.map Prod.fst = (⟨[0, 3600], [1000, 1000]⟩ : IrradiationTable).index ∧
      (∀ p ∈ out,
        p.2.global_irradiation ∈ (⟨[0, 3600], [1000, 1000]⟩ : IrradiationTable).GHI ∧
        p.2.shortwave_radiation = p.2.global_irradiation * 3600 / 3600 ∧
        p.2.PAR = p.2.global_irradiation * 3600 * (1/2) * (1/1000000) ∧
        p.2.PPFD = p.2.shortwave_radiation * (1/2) * (46/10)) ∧
      ((∀ g ∈ (⟨[0, 3600], [1000, 1000]⟩ : IrradiationTable).GHI, g = 1000) →
        ∀ p ∈ out,
          p.2.shortwave_radiation = 1000 ∧ p.2.PAR = 9/5 ∧ p.2.PPFD = 2300)) :=
  ⟨rfl, rfl, by decide,
    calculate_PAR_hourly_table ⟨[0, 3600], [1000, 1000]⟩ 0 3600 [] rfl rfl
      (by decide)⟩

/-- C3 (amended): the precondition check of `calculate_aggregated_par`
examines only the Python `timedelta.seconds` component (the sub-day part of
the gap between the first two index entries).  For hourly and 30min levels
it fails with the assertion error, whose message carries the level and the
interval, exactly when that sub-day component is ≥ 3600 s resp. ≥ 1800 s;
for the daily level the check is vacuous (it only applies when the
whole-day component is zero, and the sub-day component is always below
86400 s), so daily aggregation never fails the precondition check — in
particular gaps of one whole day or more pass all three checks. -/
theorem calculate_aggregated_par_precondition_checks (df : IrradiationTable)
    (t0 t1 : Int) (rest : List Int) (hidx : df.index = t0 :: t1 :: rest) :
    ((calculate_aggregated_par df "daily").isOk = true) ∧
    (3600 ≤ (t1 - t0) % 86400 ↔
      calculate_aggregated_par df "hourly" =
        Except.error (AggError.assertionError
          (assert_error_message "hourly" (t1 - t0)))) ∧
    (1800 ≤ (t1 - t0) % 86400 ↔
      calculate_aggregated_par df "30min" =
        Except.error (AggError.assertionError
          (assert_error_message "30min" (t1 - t0)))) ∧
    (∀ (level : String) (δ : Int), ∃ a c e : String,
      assert_error_message level δ = a ++ level ++ c ++ toString δ ++ e) := by
  have hmod : (t1 - t0) % 86400 < 86400 := by omega
  refine ⟨?_, ?_, ?_, ?_⟩
  · simp [calculate_aggregated_par, hidx, hmod, calculate_PAR,
      Except.isOk, Except.toBool]
  · by_cases hc : (t1 - t0) % 86400 < 3600
    · simp [calculate_aggregated_par, hidx, hc, calculate_PAR]
    · simp [calculate_aggregated_par, hidx, hc]
      omega
  · by_cases hc : (t1 - t0) % 86400 < 1800
    · simp [calculate_aggregated_par, hidx, hc, calculate_PAR]
    · simp [calculate_aggregated_par, hidx, hc]
      omega
  · intro level δ
    exact ⟨"Aggregation level ", " not possible with current data time step: ",
      " s", rfl⟩

/-- C3 counterexample: a table natively sampled at exactly one day (the gap
between the first two index entries is 86400 s) is not strictly finer than
the daily bucket, yet daily aggregation succeeds instead of failing with
the precondition error the claim requires. -/
theorem calculate_aggregated_par_daily_coarse_accepted_cex :
    (calculate_aggregated_par ⟨[0, 86400], [0, 0]⟩ "daily").isOk = true := by
  decide

theorem calculate_aggregated_par_precondition_checks_witness :
    ((⟨[0, 7200], [1, 1]⟩ : IrradiationTable).index = 0 :: 7200 :: []) ∧
    (((calculate_aggregated_par ⟨[0, 7200], [1, 1]⟩ "daily").isOk = true) ∧
     (3600 ≤ ((7200 : Int) - 0) % 86400 ↔
       calculate_aggregated_par ⟨[0, 7200], [1, 1]⟩ "hourly" =
         Except.error (AggError.assertionError
           (assert_error_message "hourly" (7200 - 0)))) ∧
     (1800 ≤ ((7200 : Int) - 0) % 86400 ↔
       calculate_aggregated_par ⟨[0, 7200], [1, 1]⟩ "30min" =
         Except.error (AggError.assertionError
           (assert_error_message "30min" (7200 - 0)))) ∧
     (∀ (level : String) (δ : Int), ∃ a c e : String,
       assert_error_message level δ = a ++ level ++ c ++ toString δ ++ e)) :=
  ⟨rfl, calculate_aggregated_par_precondition_checks ⟨[0, 7200], [1, 1]⟩
    0 7200 [] rfl⟩

/-- C4: a table of 24 rows at 1-hour steps covering one day (starting at a
midnight `86400 * d`) with constant GHI = 1000 Wh/m² aggregates daily to a
single row with summed global irradiation 24000 Wh/m², summed PAR
43.2 MJ/m², mean shortwave 1000 W/m² and mean PPFD 2300 µmol/m²/s; in
general daily aggregation resamples the derived table of `calculate_PAR`
with sum for global irradiation and PAR and mean for shortwave and PPFD. -/
theorem calculate_aggregated_par_daily_24h (d : Int) (df : IrradiationTable)
    (hidx : df.index =
      (List.range 24).map (fun (k : ℕ) => 86400 * d + 3600 * (k : Int)))
    (hghi : df.GHI = List.replicate 24 1000) :
    calculate_aggregated_par df "daily" =
      Except.ok [(86400 * d,
        { global_irradiation := 24000, shortwave_radiation := 1000
        , PAR := 216/5, PPFD := 2300 })] ∧
    (∀ (df2 : IrradiationTable) (tbl : List (Int × ParRow)),
      calculate_PAR df2 = some tbl →
      calculate_aggregated_par df2 "daily" = Except.ok (resampleAgg 86400 tbl)) := by
  have hgen : ∀ (df2 : IrradiationTable) (tbl : List (Int × ParRow)),
      calculate_PAR df2 = some tbl →
      calculate_aggregated_par df2 "daily" = Except.ok (resampleAgg 86400 tbl) := by
    intro df2 tbl htbl
    rcases hidx2 : df2.index with _ | ⟨a, _ | ⟨b, t⟩⟩
    · simp [calculate_PAR, hidx2] at htbl
    · simp [calculate_PAR, hidx2] at htbl
    · have hm : (b - a) % 86400 < 86400 := by omega
      simp [calculate_aggregated_par, hidx2, hm, htbl]
  refine ⟨?_, hgen⟩
  have hidx2 : df.index = (86400 * d + 3600 * ((0 : ℕ) : Int)) ::
      (86400 * d + 3600 * ((1 : ℕ) : Int)) ::
      (([2, 3, 4, 5, 6, 7, 8, 9, 10, 11, 12, 13, 14, 15, 16, 17, 18, 19,
        20, 21, 22, 23] : List ℕ).map (fun (k : ℕ) => 86400 * d + 3600 * (k : Int))) := by
    rw [hidx]; rfl
  have hΔ : time_delta_seconds ((86400 * d + 3600 * ((1 : ℕ) : Int)) -
      (86400 * d + 3600 * ((0 : ℕ) : Int))) = 3600 := by
    have hΔval : (86400 * d + 3600 * ((1 : ℕ) : Int)) -
        (86400 * d + 3600 * ((0 : ℕ) : Int)) = 3600 := by push_cast; ring
    rw [hΔval]; decide
  have hPAR : calculate_PAR df =
      some (df.index.zip (df.GHI.map (mkParRow 3600))) := by
    rw [calculate_PAR, hidx2]
    simp only [hΔ]
  have hlen_idx : df.index.length = 24 := by rw [hidx]; simp
  have hlen_ghi : df.GHI.length = 24 := by rw [hghi]; simp
  have hB : ∀ p ∈ df.index.zip (df.GHI.map (mkParRow 3600)),
      bucketOf 86400 p.1 = 86400 * d := by
    intro p hp
    have hp1 : p.1 ∈ df.index := (List.of_mem_zip hp).1
    rw [hidx] at hp1
    obtain ⟨k, hk, hke⟩ := List.mem_map.mp hp1
    have hk24 : k < 24 := List.mem_range.mp hk
    rw [← hke]
    show (86400 : Int) * ((86400 * d + 3600 * (k : Int)) / 86400) = 86400 * d
    omega
  have hne : df.index.zip (df.GHI.map (mkParRow 3600)) ≠ [] := by
    intro hcon
    have hl := congrArg List.length hcon
    simp [List.length_zip, hlen_idx, hlen_ghi] at hl
  have hsnd : (df.index.zip (df.GHI.map (mkParRow 3600))).map Prod.snd =
      List.replicate 24 (mkParRow 3600 1000) := by
    rw [List.map_snd_zip _ _ (by simp [hlen_idx, hlen_ghi]), hghi,
      List.map_replicate]
  have hrow : aggRow (List.replicate 24 (mkParRow 3600 1000)) =
      { global_irradiation := 24000, shortwave_radiation := 1000
      , PAR := 216/5, PPFD := 2300 } := by
    rw [aggRow_replicate 24 (mkParRow 3600 1000) (by norm_num)]
    norm_num [mkParRow, PAR_FRACTION, J_TO_UMOL, nsmul_eq_mul]
  rw [hgen df _ hPAR,
    resampleAgg_single_bucket 86400 (86400 * d) _ hne hB, hsnd, hrow]

theorem calculate_aggregated_par_daily_24h_witness :
    ((⟨(List.range 24).map (fun (k : ℕ) => 86400 * (0 : Int) + 3600 * (k : Int)),
        List.replicate 24 1000⟩ : IrradiationTable).index =
      (List.range 24).map (fun (k : ℕ) => 86400 * (0 : Int) + 3600 * (k : Int))) ∧
    ((⟨(List.range 24).map (fun (k : ℕ) => 86400 * (0 : Int) + 3600 * (k : Int)),
        List.replicate 24 1000⟩ : IrradiationTable).GHI = List.replicate 24 1000) ∧
    (calculate_aggregated_par
        ⟨(List.range 24).map (fun (k : ℕ) => 86400 * (0 : Int) + 3600 * (k : Int)),
          List.replicate 24 1000⟩ "daily" =
      Except.ok [(86400 * (0 : Int),
        { global_irradiation := 24000, shortwave_radiation := 1000
        , PAR := 216/5, PPFD := 2300 })] ∧
     (∀ (df2 : IrradiationTable) (tbl : List (Int × ParRow)),
       calculate_PAR df2 = some tbl →
       calculate_aggregated_par df2 "daily" = Except.ok (resampleAgg 86400 tbl))) :=
  ⟨rfl, rfl,
    calculate_aggregated_par_daily_24h 0
      ⟨(List.range 24).map (fun (k : ℕ) => 86400 * (0 : Int) + 3600 * (k : Int)),
        List.replicate 24 1000⟩ rfl rfl⟩

/-- C6 (amended): the CSV parser discards everything up to and including
the final `'#'` character — the remainder of the line containing that
`'#'` is kept and becomes the header line — and normalizes each header by
trimming surrounding whitespace and replacing internal spaces with
underscores, so `" Col A "` becomes `"Col_A"`. -/
theorem read_csv_discards_through_last_hash_char (pre post : String)
    (h : '#' ∉ post.data) :
    _read_csv_url_to_dataframe (pre ++ "#" ++ post) = parse_semicolon_table post ∧
    normalizeHeader " Col A " = "Col_A" := by
  refine ⟨?_, by decide⟩
  unfold _read_csv_url_to_dataframe
  rw [show ("#" : String) = String.mk ['#'] from rfl, afterLastSep_append '#' pre post h]

/-- C6 counterexample: on the payload `"#Col\nrow"` the code keeps
`"Col\nrow"` (everything after the last `'#'` character, so the header row
`Col` survives from the `#`-prefixed line), while the claim's
discard-through-the-last-`#`-line semantics would keep only `"row"`. -/
theorem read_csv_hash_line_cex :
    afterLastSep '#' "#Col\nrow" = "Col\nrow" ∧
    spec_discard_through_last_hash_line "#Col\nrow" = "row" ∧
    ("Col\nrow" : String) ≠ "row" ∧
    (_read_csv_url_to_dataframe "#Col\nrow").1 = ["Col"] ∧
    (parse_semicolon_table (spec_discard_through_last_hash_line "#Col\nrow")).1
      = ["row"] := by
  refine ⟨?_, ?_, ?_, ?_, ?_⟩ <;> decide

theorem read_csv_discards_through_last_hash_char_witness :
    ('#' ∉ ("h;i\n1;2" : String).data) ∧
    (_read_csv_url_to_dataframe ("skip" ++ "#" ++ "h;i\n1;2") =
        parse_semicolon_table "h;i\n1;2" ∧
      normalizeHeader " Col A " = "Col_A") :=
  ⟨by decide, read_csv_discards_through_last_hash_char "skip" "h;i\n1;2" (by decide)⟩

/-- C7: index normalization keeps the row data, names the index after the
original column unless a rename is given, and maps every observation-period
string of the form `start ++ "/" ++ rest` to the parsed timestamp of its
start portion; in particular `"2023-01-01T00:00/2023-01-01T01:00"` yields
the timestamp 2023-01-01 00:00.  (The Python function mutates the input
table in place and returns it; the pure model returns the updated table.) -/
theorem observation_period_to_index_spec {ρ : Type} (df : RawTable ρ)
    (name? : Option String) :
    (observation_period_to_index df name?).rows = df.rows ∧
    (observation_period_to_index df name?).index_name = name?.getD CAMS_TIME_COL ∧
    List.Forall₂ (fun s t => ∀ st en : String,
        s = st ++ "/" ++ en → '/' ∉ st.data → t = parseTimestamp st)
      df.observation_period (observation_period_to_index df name?).index ∧
    parseTimestamp (beforeFirstSep '/' "2023-01-01T00:00/2023-01-01T01:00") =
      ⟨2023, 1, 1, 0, 0⟩ := by
  refine ⟨rfl, rfl, ?_, by decide⟩
  unfold observation_period_to_index
  rw [List.forall₂_map_right_iff, List.forall₂_same]
  intro s hs st en hse hslash
  subst hse
  rw [show (st ++ "/" ++ en) = st ++ String.mk ['/'] ++ en from rfl,
    beforeFirstSep_append '/' st en hslash]

theorem observation_period_to_index_spec_witness :
    (observation_period_to_index
        (⟨["2023-01-01T00:00/2023-01-01T01:00"], [0]⟩ : RawTable Nat) none).rows
      = [0] ∧
    (observation_period_to_index
        (⟨["2023-01-01T00:00/2023-01-01T01:00"], [0]⟩ : RawTable Nat) none).index_name
      = (none : Option String).getD CAMS_TIME_COL ∧
    List.Forall₂ (fun s t => ∀ st en : String,
        s = st ++ "/" ++ en → '/' ∉ st.data → t = parseTimestamp st)
      (⟨["2023-01-01T00:00/2023-01-01T01:00"], [0]⟩ : RawTable Nat).observation_period
      (observation_period_to_index
        (⟨["2023-01-01T00:00/2023-01-01T01:00"], [0]⟩ : RawTable Nat) none).index ∧
    parseTimestamp (beforeFirstSep '/' "2023-01-01T00:00/2023-01-01T01:00") =
      ⟨2023, 1, 1, 0, 0⟩ :=
  observation_period_to_index_spec
    (⟨["2023-01-01T00:00/2023-01-01T01:00"], [0]⟩ : RawTable Nat) none
